import Mathlib

/-!
Shallow embedding of the tix-scraper booking engine
(`src/internal/services/scraper.go` and the related earlier versions of the
`services` package) for checking the natural-language specification.

Browser-driving code is modelled by making every external observation
(current URL, DOM query results, OCR output, JavaScript dialog messages)
an explicit input: each Go function becomes a pure Lean function from its
configuration and an environment record describing what the browser would
have reported, to the value the Go code computes plus the externally
visible actions (clicks, reloads, file writes) it performs.
-/

namespace TixScraper

/-- Booking receipt record (struct `Booking` in scraper.go). -/
structure Booking where
  sessionID : String
  seat : String
  eventID : String
  ticketID : String
  numOfTickets : String
  orderNumber : String
  eventName : String
  eventDate : String
  eventVenue : String
  «section» : String
  seatInfo : String
  ticketInfo : String
  ticketQty : String
  serviceFee : String
  total : String
  userName : String
deriving Repr, DecidableEq

/-- Run configuration (struct `ScraperConfig` in scraper.go). -/
structure ScraperConfig where
  baseURL : String
  eventID : String
  ticketID : String
  filter : String
  perOrderTicket : String
  maxTickets : String
  sessionID : String
  loop : Bool
  preSaleCode : String
deriving Repr, DecidableEq

/-- Whitespace as recognised by Go `unicode.IsSpace` (Latin-1 range) and by
JavaScript `String.prototype.trim`: space, tab, newline, vertical tab,
form feed, carriage return, NEL and NBSP. -/
def goIsSpace (c : Char) : Bool :=
  c == ' ' || c == '\t' || c == '\n' || c.val == 11 || c.val == 12 ||
  c.val == 13 || c.val == 0x85 || c.val == 0xA0

/-- Go `strings.TrimSpace` (also used for JavaScript `.trim()`):
drop leading and trailing whitespace. -/
def goTrimSpace (s : String) : String :=
  ⟨((s.data.dropWhile goIsSpace).reverse.dropWhile goIsSpace).reverse⟩

/-- Byte length of a character in UTF-8, as counted by Go `len` on a string. -/
def goCharBytes (c : Char) : Nat :=
  if c.val.toNat < 0x80 then 1
  else if c.val.toNat < 0x800 then 2
  else if c.val.toNat < 0x10000 then 3
  else 4

/-- Go `len(s)` on a string: number of UTF-8 bytes. -/
def goStrByteLen (s : String) : Nat :=
  (s.data.map goCharBytes).sum

/-- Go `strconv.Atoi`: optional sign, at least one decimal digit, nothing
else, and the value must fit in a 64-bit int (out-of-range input reports an
error, which the callers treat the same as a syntax error). -/
def goAtoi (s : String) : Option Int :=
  match s.data with
  | [] => none
  | c :: rest =>
    let (neg, digits) :=
      if c == '-' then (true, rest)
      else if c == '+' then (false, rest)
      else (false, c :: rest)
    if digits.isEmpty then none
    else if digits.all Char.isDigit then
      let n : Nat := digits.foldl (fun acc d => acc * 10 + (d.toNat - 48)) 0
      let v : Int := if neg then -(n : Int) else (n : Int)
      if -(2 ^ 63) ≤ v ∧ v ≤ 2 ^ 63 - 1 then some v else none
    else none

/-- Two's-complement wrap-around of Go 64-bit `int` arithmetic: the value
an `int64` holds when the mathematical result of an operation is `x`. -/
def wrap64 (x : Int) : Int :=
  (x + 2 ^ 63) % 2 ^ 64 - 2 ^ 63

/-- Planned iteration count computed at the top of `RunScraper`
(scraper.go lines 277-294).  `none` means the run logs an invalid-format
message and returns before performing any iteration; `some n` means the
iteration loop runs with `numLoops = n`.  Go evaluates
`(maxTickets + quantity - 1) / quantity` in `int64`: the addition and the
subtraction each wrap (`wrap64`), and `/` on a positive divisor is
truncated division (`Int.tdiv`; the `MinInt64 / -1` wrap cannot arise
here since the branch requires `quantity > 0`). -/
def runScraperPlan (cfg : ScraperConfig) : Option Int :=
  match goAtoi cfg.perOrderTicket with
  | none => none
  | some quantity =>
    match goAtoi cfg.maxTickets with
    | none => none
    | some maxTickets =>
      if cfg.loop = true ∧ 0 < quantity ∧ 0 < maxTickets then
        some (Int.tdiv (wrap64 (wrap64 (maxTickets + quantity) - 1)) quantity)
      else
        some 1

/-- Does `hay` start with `needle`?  Helper for substring containment. -/
def charsLeadWith : List Char → List Char → Bool
  | _, [] => true
  | [], _ :: _ => false
  | a :: as, b :: bs => a == b && charsLeadWith as bs

/-- Does `hay` contain `needle` as a contiguous run of characters? -/
def charsContain (hay needle : List Char) : Bool :=
  charsLeadWith hay needle ||
    match hay with
    | [] => false
    | _ :: rest => charsContain rest needle

/-- JavaScript `s.includes(sub)`: case-sensitive substring containment. -/
def jsIncludes (s sub : String) : Bool :=
  charsContain s.data sub.data

/-- Model of the Go regular-expression test
`regexp.MatchString("^[a-zA-Z]\x7b4\x7d$", t)`: the whole string is exactly
four ASCII letters. -/
def alpha4Regex (t : String) : Bool :=
  t.data.length == 4 && t.data.all (fun c => c.isUpper || c.isLower)

/-- `isValidCaptcha` (part_002 lines 71-80): trim the text, require Go byte
length exactly 4, then require the four-ASCII-letter regular expression to
match. -/
def isValidCaptcha (text : String) : Bool :=
  let t := goTrimSpace text
  if goStrByteLen t != 4 then false
  else alpha4Regex t

/-- Externally visible step of one `bypassCaptcha` attempt. -/
inductive CaptchaEvent where
  /-- invalid OCR read: the page is reloaded for a fresh captcha -/
  | reload
  /-- `processCaptcha` returned an error: logged, loop continues -/
  | skipError
deriving Repr, DecidableEq

/-- `bypassCaptcha` (part_002 lines 155-210) over an oracle list of OCR
results for the successive attempts (`none` = `processCaptcha` error).
Returns the accepted text, if any, and the attempt events.  The page
reload between attempts is assumed to succeed. -/
def bypassCaptcha : Nat → List (Option String) → Option String × List CaptchaEvent
  | 0, _ => (none, [])
  | _ + 1, [] => (none, [])
  | n + 1, r :: rest =>
    match r with
    | none =>
      let p := bypassCaptcha n rest
      (p.1, CaptchaEvent.skipError :: p.2)
    | some text =>
      if isValidCaptcha text then (some text, [])
      else
        let p := bypassCaptcha n rest
        (p.1, CaptchaEvent.reload :: p.2)

/-- Inner loop of the seat-selection script in `executeBookingFlow`
(scraper.go lines 816-860): the first link whose `innerText` contains the
filter, with its index. -/
def firstMatch (f : String) : List String → Option (Nat × String)
  | [] => none
  | a :: rest =>
    if jsIncludes a f then some (0, a)
    else (firstMatch f rest).map (fun p => (p.1 + 1, p.2))

/-- Outer loop over the comma-separated filter alternatives, tried
first-to-last; the first filter with any matching link wins. -/
def firstFilterMatch (links : List String) : List String → Option (Nat × String)
  | [] => none
  | f :: fs =>
    match firstMatch f links with
    | some p => some p
    | none => firstFilterMatch links fs

/-- JavaScript `String.prototype.split` on a single separator character:
splitting keeps empty pieces (`"a,,b"` gives three pieces, `""` gives one
empty piece). -/
def splitChars (sep : Char) : List Char → List (List Char)
  | [] => [[]]
  | c :: rest =>
    let r := splitChars sep rest
    if c == sep then [] :: r
    else
      match r with
      | [] => [[c]]
      | g :: gs => (c :: g) :: gs

/-- `filter.split(',').map(f => f.trim()).filter(f => f)` from the seat
script. -/
def splitFilters (filter : String) : List String :=
  (((splitChars ',' filter.data).map (fun l => goTrimSpace ⟨l⟩)).filter (fun f => f ≠ ""))

/-- The seat-selection script evaluated in `executeBookingFlow`
(scraper.go lines 816-860): given the filter and the `innerText`s of the
`.area-list a` links, returns the string the script returns together with
the index of the clicked link, if any.  When the comma-split filter list
is empty (e.g. the filter is `","`), the script reads `filters[0]`, which
is `undefined`, and `includes(undefined)` coerces it to the string
`"undefined"`. -/
def seatScript (filter : String) (links : List String) : String × Option Nat :=
  if filter = "" || goTrimSpace filter = "" then
    match links with
    | [] => ("no_seats_available", none)
    | a :: _ => (goTrimSpace a, some 0)
  else
    let filters := splitFilters filter
    if filters.length > 1 then
      match firstFilterMatch links filters with
      | some (i, t) => (goTrimSpace t, some i)
      | none => ("no_matching_seat", none)
    else
      let singleFilter := filters.headD "undefined"
      match firstMatch singleFilter links with
      | some (i, t) => (goTrimSpace t, some i)
      | none => ("no_matching_seat", none)

/-- How the Go code in `executeBookingFlow` (scraper.go lines 868-877)
classifies the seat-script result. -/
inductive SeatOutcome where
  /-- the iteration fails (`return false`) -/
  | failed
  /-- flow proceeds with this seat label and clicked link index -/
  | selected (text : String) (idx : Option Nat)
deriving Repr, DecidableEq

/-- Go `strings.HasPrefix`. -/
def goHasLead (s pre : String) : Bool :=
  charsLeadWith s.data pre.data

/-- Go-side check of the seat-script result: `"no_matching_seat"` and
`"error:..."` fail the iteration; every other value (including the
sentinel `"no_seats_available"`) is kept as the selected seat. -/
def seatOutcome (filter : String) (links : List String) : SeatOutcome :=
  let r := seatScript filter links
  if r.1 = "no_matching_seat" then SeatOutcome.failed
  else if goHasLead r.1 "error:" then SeatOutcome.failed
  else SeatOutcome.selected r.1 r.2

/-- What the browser reports for the pre-sale form check in
`handlePreSaleCode` (scraper.go lines 1159-1202). -/
inductive PreSaleCheck where
  /-- the `chromedp` evaluation of the form check itself errored -/
  | checkFailed
  /-- no `#form-ticket-verify` element is visible -/
  | absent
  /-- the form is visible; `submitOk` records whether the fill-and-submit
  browser actions succeed when attempted -/
  | present (submitOk : Bool)
deriving Repr, DecidableEq

/-- Result of `handlePreSaleCode`: `ok` models `return nil` (advance),
`err` models a non-nil Go error with its message. -/
inductive PreSaleOutcome where
  | ok
  | err (msg : String)
deriving Repr, DecidableEq

/-- `handlePreSaleCode` (scraper.go lines 1159-1202): absent form is a
no-op; a present form with an empty configured code returns an error; a
present form with a code fills and submits it. -/
def handlePreSaleCode (check : PreSaleCheck) (preSaleCode : String) : PreSaleOutcome :=
  match check with
  | PreSaleCheck.checkFailed => PreSaleOutcome.err "failed to check for pre-sale form"
  | PreSaleCheck.absent => PreSaleOutcome.ok
  | PreSaleCheck.present submitOk =>
    if preSaleCode = "" then
      PreSaleOutcome.err "pre-sale code form found but no code provided"
    else if submitOk then PreSaleOutcome.ok
    else PreSaleOutcome.err "failed to submit pre-sale code"

/-- What the browser reports for one submission attempt inside
`executeBookingFlow`'s captcha loop (scraper.go lines 881-998). -/
structure SubmitObs where
  /-- URL read before the form is filled -/
  currentURL : String
  /-- message of a JavaScript dialog raised during submission, if any
  (sets `hasError` in the Go code) -/
  dialogMsg : Option String
  /-- result of the error-message DOM scan after submission -/
  pageErrorText : String
  /-- URL read after the scan -/
  newURL : String
deriving Repr, DecidableEq

/-- Oracle for one round of the captcha loop. -/
structure AttemptEnv where
  /-- `fastProcessCaptcha` result; `none` = it returned an error -/
  captcha : Option String
  /-- observations of the submission actions; `none` = the `chromedp.Run`
  performing them returned an error -/
  submit : Option SubmitObs
deriving Repr, DecidableEq

/-- Oracle for one `executeBookingFlow` invocation. -/
structure FlowEnv where
  /-- pre-sale form state -/
  preSale : PreSaleCheck
  /-- `innerText`s of the `.area-list a` links; `none` = the seat-selection
  `chromedp.Run` errored -/
  seatLinks : Option (List String)
  /-- oracle for the successive captcha-loop rounds -/
  attempts : List AttemptEnv
deriving Repr

/-- Externally visible actions of `executeBookingFlow`. -/
inductive FlowEvent where
  /-- a seat link was clicked (index and returned label) -/
  | seatClicked (idx : Nat) (text : String)
  /-- the ticket form was submitted with this quantity and captcha text -/
  | submitAttempted (quantity : String) (captchaText : String)
  /-- `fastReloadPage` -/
  | pageReload
  /-- a booking receipt was handed to a save function -/
  | receiptSaved (b : Booking)
deriving Repr, DecidableEq

/-- The captcha loop of `executeBookingFlow` (scraper.go lines 881-1000,
`maxCaptchaRetries = 8`): captcha error, submission error, a dialog or
non-empty page error text, and an unchanged URL all reload and retry; a
changed URL with no error is success.  The success branch (lines 971-993)
only logs — the booking extraction and `saveBooking` call there are
commented out — so no `receiptSaved` event is ever produced. -/
def bookingAttemptLoop (quantity : String) : Nat → List AttemptEnv → Bool × List FlowEvent
  | 0, _ => (false, [])
  | _ + 1, [] => (false, [])
  | n + 1, a :: rest =>
    match a.captcha with
    | none =>
      let p := bookingAttemptLoop quantity n rest
      (p.1, FlowEvent.pageReload :: p.2)
    | some text =>
      match a.submit with
      | none =>
        let p := bookingAttemptLoop quantity n rest
        (p.1, FlowEvent.pageReload :: p.2)
      | some obs =>
        if obs.dialogMsg.isSome || obs.pageErrorText ≠ "" then
          let p := bookingAttemptLoop quantity n rest
          (p.1, FlowEvent.submitAttempted quantity text :: FlowEvent.pageReload :: p.2)
        else if obs.newURL ≠ obs.currentURL then
          (true, [FlowEvent.submitAttempted quantity text])
        else
          let p := bookingAttemptLoop quantity n rest
          (p.1, FlowEvent.submitAttempted quantity text :: FlowEvent.pageReload :: p.2)

/-- `executeBookingFlow` (scraper.go lines 781-1001): pre-sale check, seat
selection, then the bounded captcha/submission loop.  Returns the Go
boolean together with the externally visible actions. -/
def executeBookingFlow (cfg : ScraperConfig) (env : FlowEnv) : Bool × List FlowEvent :=
  match handlePreSaleCode env.preSale cfg.preSaleCode with
  | PreSaleOutcome.err _ => (false, [])
  | PreSaleOutcome.ok =>
    match env.seatLinks with
    | none => (false, [])
    | some links =>
      match seatOutcome cfg.filter links with
      | SeatOutcome.failed => (false, [])
      | SeatOutcome.selected text idx =>
        let seatEvs := match idx with
          | some i => [FlowEvent.seatClicked i text]
          | none => []
        let p := bookingAttemptLoop cfg.perOrderTicket 8 env.attempts
        (p.1, seatEvs ++ p.2)

/-- The booking carried by a `receiptSaved` event, if any. -/
def eventReceipt : FlowEvent → Option Booking
  | FlowEvent.receiptSaved b => some b
  | _ => none

/-- Receipts appended by a flow invocation: the `receiptSaved` events. -/
def flowReceipts (r : Bool × List FlowEvent) : List Booking :=
  r.2.filterMap eventReceipt

/-- An event submits only the given quantity (trivially true for
non-submission events). -/
def eventQuantityOk (quantity : String) : FlowEvent → Prop
  | FlowEvent.submitAttempted q _ => q = quantity
  | _ => True

/-- What the browser reports for one submission attempt inside
`processTicketPage` (scraper.go lines 386-466). -/
structure TicketSubmitObs where
  /-- URL read before the form is filled -/
  currentURL : String
  /-- result of the error-message DOM scan after submission -/
  errorMessage : String
  /-- URL read after the scan -/
  newURL : String
deriving Repr, DecidableEq

/-- Oracle for one round of the `processTicketPage` captcha loop. -/
structure TicketAttemptEnv where
  /-- `fastProcessCaptcha` result; `none` = error -/
  captcha : Option String
  /-- submission observations; `none` = the `chromedp.Run` errored -/
  submit : Option TicketSubmitObs
deriving Repr, DecidableEq

/-- Derived per-attempt classification used to state what
`processTicketPage` computes: an attempt succeeds exactly when the captcha
read and the submission actions worked, the error scan found nothing, and
the URL changed. -/
def ticketAttemptSuccess (a : TicketAttemptEnv) : Bool :=
  match a.captcha, a.submit with
  | some _, some obs => obs.errorMessage == "" && obs.newURL != obs.currentURL
  | _, _ => false

/-- The retry loop of `processTicketPage` (scraper.go lines 386-466,
`maxCaptchaRetries = 8`), mirroring its branch structure: each failing
branch reloads the page (counted) and retries; a changed URL with an empty
error scan returns `true`. -/
def processTicketLoop : Nat → List TicketAttemptEnv → Bool × Nat
  | 0, _ => (false, 0)
  | _ + 1, [] => (false, 0)
  | n + 1, a :: rest =>
    match a.captcha with
    | none =>
      let p := processTicketLoop n rest
      (p.1, p.2 + 1)
    | some _ =>
      match a.submit with
      | none =>
        let p := processTicketLoop n rest
        (p.1, p.2 + 1)
      | some obs =>
        if obs.errorMessage ≠ "" then
          let p := processTicketLoop n rest
          (p.1, p.2 + 1)
        else if obs.newURL ≠ obs.currentURL then
          (true, 0)
        else
          let p := processTicketLoop n rest
          (p.1, p.2 + 1)

/-- `processTicketPage`: at most 8 attempts; returns whether the
submission was classified successful and how many page reloads happened. -/
def processTicketPage (attempts : List TicketAttemptEnv) : Bool × Nat :=
  processTicketLoop 8 attempts

/-- `resetBrowserState` (scraper.go lines 342-357): the safe starting page
the browser is navigated back to. -/
def resetBrowserStateURL (cfg : ScraperConfig) : String :=
  if cfg.eventID ≠ "" && cfg.ticketID ≠ "" then
    "https://tixcraft.com/ticket/area/" ++ cfg.eventID ++ "/" ++ cfg.ticketID
  else if cfg.eventID ≠ "" then
    "https://tixcraft.com/activity/game/" ++ cfg.eventID
  else
    "https://tixcraft.com"

/-- What the orchestrator does after one `runMainFlow` invocation. -/
inductive PostStep where
  /-- success: the iteration counter is incremented -/
  | advance
  /-- failure: sleep `seconds`, then navigate back to `url`
  (`resetBrowserState`), and retry the same iteration -/
  | backoffReset (seconds : Nat) (url : String)
deriving Repr, DecidableEq

/-- The iteration loop of `RunScraper` (scraper.go lines 314-339) over an
oracle list of outcomes of the successive `runMainFlow` invocations.
Returns `some trace` — one `(iteration, outcome, post-step)` entry per
invocation — when the loop terminates within the supplied outcomes, and
`none` when the oracle is exhausted while the run is still going. -/
def scraperLoop (cfg : ScraperConfig) (numLoops : Nat) :
    Nat → List Bool → Option (List (Nat × Bool × PostStep))
  | i, [] => if numLoops < i then some [] else none
  | i, o :: rest =>
    if numLoops < i then some []
    else if o then
      (scraperLoop cfg numLoops (i + 1) rest).map
        (fun tr => (i, true, PostStep.advance) :: tr)
    else
      (scraperLoop cfg numLoops i rest).map
        (fun tr => (i, false, PostStep.backoffReset 2 (resetBrowserStateURL cfg)) :: tr)

/-- File-system actions performed by the save functions. -/
inductive FileOp where
  | mkdirAll (dir : String)
  | readFile (path : String)
  | writeFile (path : String)
  | rename (fromPath toPath : String)
  /-- `fileMutex.Lock()` — the single mutex shared by both save functions -/
  | lockAcquire
  /-- `fileMutex.Unlock()` -/
  | lockRelease
deriving Repr, DecidableEq

/-- File operations of one fully successful attempt of `safeSaveBooking`
(scraper.go lines 627-688): everything under `fileMutex`, the new
collection serialized to `data/bookings.json.tmp` in the same directory,
then renamed over the target. -/
def safeSaveBookingOps : List FileOp :=
  [FileOp.lockAcquire,
   FileOp.mkdirAll "data",
   FileOp.readFile "data/bookings.json",
   FileOp.writeFile "data/bookings.json.tmp",
   FileOp.rename "data/bookings.json.tmp" "data/bookings.json",
   FileOp.lockRelease]

/-- File operations of a successful `saveBooking` run (scraper.go lines
1119-1157): under the same `fileMutex`, but the collection is written
directly to `data/bookings.json` — no temporary file, no rename. -/
def saveBookingOps : List FileOp :=
  [FileOp.lockAcquire,
   FileOp.mkdirAll "data",
   FileOp.readFile "data/bookings.json",
   FileOp.writeFile "data/bookings.json",
   FileOp.lockRelease]

/-- What reading `data/bookings.json` can yield. -/
inductive ReadResult where
  /-- the file does not exist (`os.IsNotExist`) -/
  | missing
  /-- reading failed with some other error -/
  | readError
  /-- the file holds these bytes; `none` = `json.Unmarshal` fails on them,
  `some l` = they parse as the receipt list `l` -/
  | content (parsed : Option (List Booking))
deriving Repr

/-- Receipt collection written by `saveBooking` (scraper.go lines
1119-1157): `none` = the function returns without writing (read error);
on an unreadable-JSON file it logs, resets the collection to empty, and
appends only the new booking. -/
def saveBookingResult (r : ReadResult) (b : Booking) : Option (List Booking) :=
  match r with
  | ReadResult.readError => none
  | ReadResult.missing => some [b]
  | ReadResult.content none => some [b]
  | ReadResult.content (some l) => some (l ++ [b])

/-- Receipt collection written by one attempt of `safeSaveBooking`
(scraper.go lines 627-688): same data transformation as `saveBooking`
(a read error makes the attempt fail and be retried; a parse error starts
fresh with only the new booking). -/
def safeSaveBookingResult (r : ReadResult) (b : Booking) : Option (List Booking) :=
  match r with
  | ReadResult.readError => none
  | ReadResult.missing => some [b]
  | ReadResult.content none => some [b]
  | ReadResult.content (some l) => some (l ++ [b])

/-- A run configuration with quantity 2 and max tickets 4, loop mode on. -/
def flowCfg : ScraperConfig :=
  ⟨"https://tixcraft.com", "evt", "tkt", "A", "2", "4", "sid", true, ""⟩

/-- A flow environment for a successful iteration: no pre-sale form, one
area link matching the filter, and a first submission attempt whose URL
changes with no dialog and no error text. -/
def successEnv : FlowEnv :=
  ⟨PreSaleCheck.absent, some ["A1 VIP"],
   [⟨some "wxyz", some ⟨"https://tixcraft.com/ticket/ticket/evt/tkt", none, "",
      "https://tixcraft.com/ticket/order"⟩⟩]⟩

/-- A configuration whose per-order quantity does not parse as an integer
and whose loop flag is off. -/
def badQuantityCfg : ScraperConfig :=
  ⟨"https://tixcraft.com", "evt", "tkt", "", "abc", "5", "sid", false, ""⟩

/-- Loop-mode configuration used for the orchestrator-loop claims. -/
def loopCfg : ScraperConfig :=
  ⟨"https://tixcraft.com", "e", "t", "", "2", "5", "sid", true, ""⟩

/-- Trace of a run of two planned iterations whose first `runMainFlow`
invocation fails and is retried. -/
def loopTrace : List (Nat × Bool × PostStep) :=
  [(1, false, PostStep.backoffReset 2 "https://tixcraft.com/ticket/area/e/t"),
   (1, true, PostStep.advance),
   (2, true, PostStep.advance)]

/-- Configuration with a pre-sale-gated event and no configured code. -/
def noCodeCfg : ScraperConfig :=
  ⟨"https://tixcraft.com", "e", "t", "", "2", "4", "sid", true, ""⟩

/-- Environment in which the pre-sale access-code form is present. -/
def presaleEnv : FlowEnv :=
  ⟨PreSaleCheck.present true, some ["A1"], []⟩

/-- The end-to-end scenario configuration of the spec: quantity 2, max 5,
filter `A1`, loop mode. -/
def scenarioCfg : ScraperConfig :=
  ⟨"https://tixcraft.com", "e", "t", "A1", "2", "5", "sid", true, ""⟩

/- ------------------------------------------------------------------ -/
/- Helper lemmas                                                       -/
/- ------------------------------------------------------------------ -/

theorem alphaByte (c : Char) (h : (c.isUpper || c.isLower) = true) :
    goCharBytes c = 1 := by
  simp [Char.isUpper, Char.isLower] at h
  unfold goCharBytes
  rcases h with ⟨h1, h2⟩ | ⟨h1, h2⟩
  · have h3 : c.val.toNat ≤ 90 := h2
    rw [if_pos (by omega)]
  · have h3 : c.val.toNat ≤ 122 := h2
    rw [if_pos (by omega)]

theorem alphaBytesLen (l : List Char) (h : ∀ c ∈ l, (c.isUpper || c.isLower) = true) :
    (l.map goCharBytes).sum = l.length := by
  induction l with
  | nil => rfl
  | cons c rest ih =>
    simp only [List.map_cons, List.sum_cons, List.length_cons]
    rw [alphaByte c (h c (by simp)), ih (fun x hx => h x (by simp [hx]))]
    omega

theorem goAtoi_range (s : String) (v : Int) (h : goAtoi s = some v) :
    -(2 ^ 63) ≤ v ∧ v ≤ 2 ^ 63 - 1 := by
  unfold goAtoi at h
  split at h
  · cases h
  · split at h
    split at h
    · cases h
    · split at h
      · split at h
        · simp only [] at h
          split at h
          · rename_i hr
            cases h
            exact hr
          · cases h
        · simp only [] at h
          split at h
          · rename_i hr
            cases h
            exact hr
          · cases h
      · cases h

theorem wrap64_sub_one (a : Int) : wrap64 (wrap64 a - 1) = wrap64 (a - 1) := by
  unfold wrap64
  omega

theorem wrap64_eq_self (x : Int) (h1 : -(2 ^ 63) ≤ x) (h2 : x ≤ 2 ^ 63 - 1) :
    wrap64 x = x := by
  unfold wrap64
  omega

theorem wrap64_high (x : Int) (h1 : 2 ^ 63 ≤ x) (h2 : x ≤ 2 ^ 64 - 1) :
    wrap64 x = x - 2 ^ 64 := by
  unfold wrap64
  omega

theorem tdiv_nonpos_of_nonpos (x q : Int) (hx : x ≤ 0) (hq : 0 ≤ q) :
    Int.tdiv x q ≤ 0 := by
  have h1 : (0 : Int) ≤ -x := by omega
  have h2 : 0 ≤ Int.tdiv (-x) q := Int.tdiv_nonneg h1 hq
  have h3 : Int.tdiv (-x) q = -(Int.tdiv x q) := Int.neg_tdiv x q
  omega

theorem ceilDivNat_spec (a b : Nat) (ha : 0 < a) (hb : 0 < b) :
    a ≤ ((a + b - 1) / b) * b ∧ (((a + b - 1) / b) - 1) * b < a := by
  have h := Nat.div_add_mod (a + b - 1) b
  have hm : (a + b - 1) % b < b := Nat.mod_lt _ hb
  generalize hd : (a + b - 1) / b = d at h ⊢
  have h1 : d * b = b * d := Nat.mul_comm d b
  have h2 : (d - 1) * b = d * b - b := by rw [Nat.sub_mul, Nat.one_mul]
  rw [h2, h1]
  generalize hx : b * d = x at h ⊢
  constructor <;> omega

theorem bookingAttemptLoop_no_receipt (q : String) :
    ∀ (n : Nat) (atts : List AttemptEnv),
      ((bookingAttemptLoop q n atts).2).filterMap eventReceipt = [] := by
  intro n atts
  induction atts generalizing n with
  | nil => cases n <;> rfl
  | cons a rest ih =>
    cases n with
    | zero => rfl
    | succ m =>
      rcases hc : a.captcha with _ | t
      · simp [bookingAttemptLoop, hc, eventReceipt, ih]
      · rcases hs : a.submit with _ | obs
        · simp [bookingAttemptLoop, hc, hs, eventReceipt, ih]
        · rw [bookingAttemptLoop]
          simp only [hc, hs]
          split
          · simp [eventReceipt, ih]
          · split
            · simp [eventReceipt]
            · simp [eventReceipt, ih]

theorem scraperLoop_successes (cfg : ScraperConfig) (numLoops : Nat) :
    ∀ (outcomes : List Bool) (i : Nat) (trace : List (Nat × Bool × PostStep)),
      scraperLoop cfg numLoops i outcomes = some trace → i ≤ numLoops + 1 →
      (trace.filter (fun e => e.2.1)).length = numLoops + 1 - i := by
  intro outcomes
  induction outcomes with
  | nil =>
    intro i trace h hi
    rw [scraperLoop] at h
    split at h
    · rename_i hlt
      cases h
      simp
      omega
    · cases h
  | cons o rest ih =>
    intro i trace h hi
    rw [scraperLoop] at h
    split at h
    · rename_i hlt
      cases h
      simp
      omega
    · rename_i hlt
      cases o
      · simp only [Bool.false_eq_true, if_false, Option.map_eq_some'] at h
        obtain ⟨tr, htr, rfl⟩ := h
        have := ih i tr htr (by omega)
        simp [List.filter]
        omega
      · simp only [if_true, Option.map_eq_some'] at h
        obtain ⟨tr, htr, rfl⟩ := h
        have := ih (i + 1) tr htr (by omega)
        simp [List.filter]
        omega

theorem scraperLoop_entries (cfg : ScraperConfig) (numLoops : Nat) :
    ∀ (outcomes : List Bool) (i : Nat) (trace : List (Nat × Bool × PostStep)),
      scraperLoop cfg numLoops i outcomes = some trace →
      ∀ e ∈ trace, (i ≤ e.1 ∧ e.1 ≤ numLoops) ∧
        (e.2.1 = true → e.2.2 = PostStep.advance) ∧
        (e.2.1 = false → e.2.2 = PostStep.backoffReset 2 (resetBrowserStateURL cfg)) := by
  intro outcomes
  induction outcomes with
  | nil =>
    intro i trace h
    rw [scraperLoop] at h
    split at h
    · cases h
      intro e he
      simp at he
    · cases h
  | cons o rest ih =>
    intro i trace h
    rw [scraperLoop] at h
    split at h
    · cases h
      intro e he
      simp at he
    · rename_i hlt
      cases o
      · simp only [Bool.false_eq_true, if_false, Option.map_eq_some'] at h
        obtain ⟨tr, htr, rfl⟩ := h
        intro e he
        rcases List.mem_cons.mp he with rfl | hmem
        · exact ⟨⟨le_refl i, by omega⟩, by simp, by simp⟩
        · have := ih i tr htr e hmem
          exact ⟨⟨this.1.1, this.1.2⟩, this.2.1, this.2.2⟩
      · simp only [if_true, Option.map_eq_some'] at h
        obtain ⟨tr, htr, rfl⟩ := h
        intro e he
        rcases List.mem_cons.mp he with rfl | hmem
        · exact ⟨⟨le_refl i, by omega⟩, by simp, by simp⟩
        · have := ih (i + 1) tr htr e hmem
          exact ⟨⟨by omega, this.1.2⟩, this.2.1, this.2.2⟩

theorem scraperLoop_head (cfg : ScraperConfig) (numLoops : Nat)
    (outcomes : List Bool) (i : Nat) (trace : List (Nat × Bool × PostStep))
    (h : scraperLoop cfg numLoops i outcomes = some trace) :
    trace = [] ∨ ∃ o p tr, trace = (i, o, p) :: tr := by
  cases outcomes with
  | nil =>
    rw [scraperLoop] at h
    split at h
    · cases h
      exact Or.inl rfl
    · cases h
  | cons o rest =>
    rw [scraperLoop] at h
    split at h
    · cases h
      exact Or.inl rfl
    · cases o
      · simp only [Bool.false_eq_true, if_false, Option.map_eq_some'] at h
        obtain ⟨tr, htr, rfl⟩ := h
        exact Or.inr ⟨false, _, tr, rfl⟩
      · simp only [if_true, Option.map_eq_some'] at h
        obtain ⟨tr, htr, rfl⟩ := h
        exact Or.inr ⟨true, _, tr, rfl⟩

theorem scraperLoop_chain (cfg : ScraperConfig) (numLoops : Nat) :
    ∀ (outcomes : List Bool) (i : Nat) (trace : List (Nat × Bool × PostStep)),
      scraperLoop cfg numLoops i outcomes = some trace →
      List.Chain' (fun a b => b.1 = a.1 + (if a.2.1 = true then 1 else 0)) trace := by
  intro outcomes
  induction outcomes with
  | nil =>
    intro i trace h
    rw [scraperLoop] at h
    split at h
    · cases h
      exact List.chain'_nil
    · cases h
  | cons o rest ih =>
    intro i trace h
    rw [scraperLoop] at h
    split at h
    · cases h
      exact List.chain'_nil
    · cases o
      · simp only [Bool.false_eq_true, if_false, Option.map_eq_some'] at h
        obtain ⟨tr, htr, rfl⟩ := h
        rw [List.chain'_cons']
        refine ⟨?_, ih i tr htr⟩
        intro b hb
        rcases scraperLoop_head cfg numLoops rest i tr htr with rfl | ⟨o', p', tr', rfl⟩
        · simp at hb
        · simp only [List.head?_cons, Option.mem_def, Option.some.injEq] at hb
          subst hb
          simp
      · simp only [if_true, Option.map_eq_some'] at h
        obtain ⟨tr, htr, rfl⟩ := h
        rw [List.chain'_cons']
        refine ⟨?_, ih (i + 1) tr htr⟩
        intro b hb
        rcases scraperLoop_head cfg numLoops rest (i + 1) tr htr with rfl | ⟨o', p', tr', rfl⟩
        · simp at hb
        · simp only [List.head?_cons, Option.mem_def, Option.some.injEq] at hb
          subst hb
          simp

/- ------------------------------------------------------------------ -/
/- Claim theorems                                                      -/
/- ------------------------------------------------------------------ -/

/-- C1: the claim says a successful iteration creates exactly one booking
receipt and appends it to the persistent collection.  In the code the
booking extraction and save call in the success branch of
`executeBookingFlow` are commented out and `safeSaveBooking` is never
called, so a successful iteration appends zero receipts: the concrete
environment below completes successfully yet produces no `receiptSaved`
event, and no flow invocation ever produces one. -/
theorem c1_successful_iteration_appends_no_receipt :
    (executeBookingFlow flowCfg successEnv).1 = true ∧
    flowReceipts (executeBookingFlow flowCfg successEnv) = [] ∧
    (flowReceipts (executeBookingFlow flowCfg successEnv)).length ≠ 1 ∧
    (∀ (cfg : ScraperConfig) (env : FlowEnv),
      flowReceipts (executeBookingFlow cfg env) = []) := by
  refine ⟨by decide, by decide, by decide, ?_⟩
  intro cfg env
  unfold flowReceipts
  rcases hps : handlePreSaleCode env.preSale cfg.preSaleCode with _ | msg
  · rcases hl : env.seatLinks with _ | links
    · simp [executeBookingFlow, hps, hl]
    · rcases hso : seatOutcome cfg.filter links with _ | ⟨text, idx⟩
      · simp [executeBookingFlow, hps, hl, hso]
      · rcases idx with _ | i <;>
          simp [executeBookingFlow, hps, hl, hso, eventReceipt,
                bookingAttemptLoop_no_receipt]
  · simp [executeBookingFlow, hps]

/-- C2 counterexample: the claim says a run with `loop=false` performs
exactly one iteration attempt regardless of the quantity/max fields, but
`RunScraper` parses both fields before checking the loop flag and returns
with zero iterations when the quantity does not parse. -/
theorem c2_counterexample :
    badQuantityCfg.loop = false ∧
    runScraperPlan badQuantityCfg = none ∧
    runScraperPlan badQuantityCfg ≠ some 1 :=
  ⟨rfl, by decide, by decide⟩

/-- C2 (amended): when both fields parse as integers: if loop mode is on,
both values are positive, and `maxTickets + quantity - 1` fits in int64,
the plan is `ceil(maxTickets / quantity)` (witnessed by the least-multiple
bounds); if loop mode is on and both are positive but the sum overflows
int64, the wrapped count is non-positive, so the iteration loop body never
runs; in every other parsed case the plan is `1`.  When either field fails
to parse, the run aborts before any iteration — even with `loop=false`. -/
theorem c2_plan_iteration_count (cfg : ScraperConfig) :
    (∀ q m : Int, goAtoi cfg.perOrderTicket = some q → goAtoi cfg.maxTickets = some m →
      ((cfg.loop = true ∧ 0 < q ∧ 0 < m ∧ m + q ≤ 2 ^ 63) →
        ∃ n : Nat, runScraperPlan cfg = some (n : Int) ∧
          n = (m.toNat + q.toNat - 1) / q.toNat ∧
          m.toNat ≤ n * q.toNat ∧ (n - 1) * q.toNat < m.toNat) ∧
      ((cfg.loop = true ∧ 0 < q ∧ 0 < m ∧ 2 ^ 63 < m + q) →
        ∃ n : Int, runScraperPlan cfg = some n ∧ n ≤ 0) ∧
      (¬ (cfg.loop = true ∧ 0 < q ∧ 0 < m) → runScraperPlan cfg = some 1)) ∧
    (goAtoi cfg.perOrderTicket = none → runScraperPlan cfg = none) ∧
    (∀ q : Int, goAtoi cfg.perOrderTicket = some q → goAtoi cfg.maxTickets = none →
      runScraperPlan cfg = none) := by
  refine ⟨?_, ?_, ?_⟩
  · intro q m hq hm
    refine ⟨?_, ?_, ?_⟩
    · rintro ⟨hloop, hqpos, hmpos, hfit⟩
      have hq0 : q = (q.toNat : Int) := (Int.toNat_of_nonneg hqpos.le).symm
      have hm0 : m = (m.toNat : Int) := (Int.toNat_of_nonneg hmpos.le).symm
      have hapos : 0 < m.toNat := by omega
      have hbpos : 0 < q.toNat := by omega
      have hw : wrap64 (wrap64 (m + q) - 1) = m + q - 1 := by
        rw [wrap64_sub_one]
        exact wrap64_eq_self _ (by omega) (by omega)
      have hcast : m + q - 1 = ((m.toNat + q.toNat - 1 : Nat) : Int) := by omega
      refine ⟨(m.toNat + q.toNat - 1) / q.toNat, ?_, rfl,
        (ceilDivNat_spec m.toNat q.toNat hapos hbpos).1,
        (ceilDivNat_spec m.toNat q.toNat hapos hbpos).2⟩
      simp only [runScraperPlan, hq, hm]
      rw [if_pos ⟨hloop, hqpos, hmpos⟩, hw, hcast, hq0, ← Int.ofNat_tdiv]
      simp [Int.toNat_natCast]
    · rintro ⟨hloop, hqpos, hmpos, hover⟩
      obtain ⟨hql, hqu⟩ := goAtoi_range cfg.perOrderTicket q hq
      obtain ⟨hml, hmu⟩ := goAtoi_range cfg.maxTickets m hm
      have hw : wrap64 (wrap64 (m + q) - 1) = m + q - 1 - 2 ^ 64 := by
        rw [wrap64_sub_one]
        exact wrap64_high _ (by omega) (by omega)
      refine ⟨Int.tdiv (m + q - 1 - 2 ^ 64) q, ?_, ?_⟩
      · simp only [runScraperPlan, hq, hm]
        rw [if_pos ⟨hloop, hqpos, hmpos⟩, hw]
      · exact tdiv_nonpos_of_nonpos _ _ (by omega) hqpos.le
    · intro hneg
      simp only [runScraperPlan, hq, hm]
      rw [if_neg hneg]
  · intro h
    simp only [runScraperPlan, h]
  · intro q hq hm
    simp only [runScraperPlan, hq, hm]

/-- Witness for C2 at the configuration quantity 2, max 5, loop mode:
the plan is 3 iterations. -/
theorem c2_plan_iteration_count_witness : runScraperPlan loopCfg = some 3 := by
  obtain ⟨n, h1, h2, h3, h4⟩ :=
    ((c2_plan_iteration_count loopCfg).1 2 5 (by decide) (by decide)).1
      ⟨rfl, by decide, by decide, by decide⟩
  have hn : n = 3 := by simpa using h2
  rw [h1, hn]
  norm_num

/-- C4: a captcha read is accepted by `isValidCaptcha` exactly when the
trimmed text consists of exactly 4 alphabetic characters, and in
`bypassCaptcha` an invalid read triggers a page reload and a further
attempt while a valid read is returned at once — an invalid read is never
a crash. -/
theorem c4_captcha_validity :
    (∀ t, isValidCaptcha t = true ↔
      ((goTrimSpace t).data.length = 4 ∧
        ∀ c ∈ (goTrimSpace t).data, (c.isUpper || c.isLower) = true)) ∧
    (∀ (n : Nat) (rest : List (Option String)) (t : String),
      isValidCaptcha t = false →
      bypassCaptcha (n + 1) (some t :: rest) =
        ((bypassCaptcha n rest).1, CaptchaEvent.reload :: (bypassCaptcha n rest).2)) ∧
    (∀ (n : Nat) (rest : List (Option String)) (t : String),
      isValidCaptcha t = true →
      bypassCaptcha (n + 1) (some t :: rest) = (some t, [])) := by
  refine ⟨?_, ?_, ?_⟩
  · intro t
    unfold isValidCaptcha alpha4Regex goStrByteLen
    simp only []
    constructor
    · intro h
      split at h
      · exact absurd h (by simp)
      · simp only [Bool.and_eq_true, beq_iff_eq, List.all_eq_true] at h
        exact ⟨h.1, h.2⟩
    · rintro ⟨hlen, hall⟩
      have hb : ((goTrimSpace t).data.map goCharBytes).sum = (goTrimSpace t).data.length :=
        alphaBytesLen _ hall
      have hall2 : (goTrimSpace t).data.all (fun c => c.isUpper || c.isLower) = true :=
        List.all_eq_true.mpr hall
      rw [if_neg (by simp [hb, hlen])]
      simp [hlen, hall2]
  · intro n rest t h
    rw [bypassCaptcha]
    simp [h]
  · intro n rest t h
    rw [bypassCaptcha]
    simp [h]

/-- Witness for C4: `"wxyz"` is accepted; `"a1!b"` is rejected and causes
a reload followed by a retry. -/
theorem c4_captcha_validity_witness :
    isValidCaptcha "wxyz" = true ∧
    bypassCaptcha 20 [some "a1!b", some "wxyz"] =
      ((bypassCaptcha 19 [some "wxyz"]).1,
        CaptchaEvent.reload :: (bypassCaptcha 19 [some "wxyz"]).2) :=
  ⟨(c4_captcha_validity.1 "wxyz").mpr (by decide),
   c4_captcha_validity.2.1 19 [some "wxyz"] "a1!b" (by decide)⟩

/-- C3: in the `RunScraper` iteration loop, a completed run in loop mode
contains exactly `numLoops` successful iterations; the iteration index
increases by one exactly after each success and stays unchanged after each
failure; every failed invocation is followed by the 2-second backoff and
the reset of the browser to the safe starting page; and successful
invocations simply advance. -/
theorem c3_counter_advances_only_on_success
    (cfg : ScraperConfig) (numLoops : Nat) (outcomes : List Bool)
    (trace : List (Nat × Bool × PostStep))
    (hrun : scraperLoop cfg numLoops 1 outcomes = some trace) :
    (trace.filter (fun e => e.2.1)).length = numLoops ∧
    List.Chain' (fun a b => b.1 = a.1 + (if a.2.1 = true then 1 else 0)) trace ∧
    (∀ e ∈ trace, 1 ≤ e.1 ∧ e.1 ≤ numLoops) ∧
    (∀ e ∈ trace, e.2.1 = true → e.2.2 = PostStep.advance) ∧
    (∀ e ∈ trace, e.2.1 = false →
      e.2.2 = PostStep.backoffReset 2 (resetBrowserStateURL cfg)) := by
  have hs := scraperLoop_successes cfg numLoops outcomes 1 trace hrun (by omega)
  have he := scraperLoop_entries cfg numLoops outcomes 1 trace hrun
  refine ⟨by omega, scraperLoop_chain cfg numLoops outcomes 1 trace hrun, ?_, ?_, ?_⟩
  · exact fun e hm => (he e hm).1
  · exact fun e hm => (he e hm).2.1
  · exact fun e hm => (he e hm).2.2

/-- Witness for C3: a run of 2 planned iterations whose first invocation
fails once. -/
theorem c3_counter_advances_only_on_success_witness :
    (loopTrace.filter (fun e => e.2.1)).length = 2 ∧
    List.Chain' (fun a b => b.1 = a.1 + (if a.2.1 = true then 1 else 0)) loopTrace ∧
    (∀ e ∈ loopTrace, 1 ≤ e.1 ∧ e.1 ≤ 2) ∧
    (∀ e ∈ loopTrace, e.2.1 = true → e.2.2 = PostStep.advance) ∧
    (∀ e ∈ loopTrace, e.2.1 = false →
      e.2.2 = PostStep.backoffReset 2 (resetBrowserStateURL loopCfg)) :=
  c3_counter_advances_only_on_success loopCfg 2 [false, true, true] loopTrace (by decide)

/-- C5 counterexample: with the pre-sale access-code form present and no
configured code, `handlePreSaleCode` returns an error, the iteration
merely reports failure, and the orchestrator retries the same iteration
after backoff and reset — the run does not terminate with a fatal error. -/
theorem c5_counterexample :
    handlePreSaleCode (PreSaleCheck.present true) "" =
      PreSaleOutcome.err "pre-sale code form found but no code provided" ∧
    (executeBookingFlow noCodeCfg presaleEnv).1 = false ∧
    scraperLoop noCodeCfg 2 1 [false, true, true] =
      some [(1, false, PostStep.backoffReset 2 "https://tixcraft.com/ticket/area/e/t"),
            (1, true, PostStep.advance), (2, true, PostStep.advance)] :=
  ⟨rfl, by decide, by decide⟩

/-- C5 (amended): an absent form is a no-op advance; a present form with a
configured code is filled and submitted and the flow advances; a present
form with no configured code makes `handlePreSaleCode` error, which fails
the iteration — and the orchestrator treats it like any failed iteration,
retrying it after the backoff and browser reset rather than terminating
the run. -/
theorem c5_presale_missing_code_fails_iteration
    (code : String) (submitOk : Bool) :
    handlePreSaleCode PreSaleCheck.absent code = PreSaleOutcome.ok ∧
    (code ≠ "" → handlePreSaleCode (PreSaleCheck.present true) code = PreSaleOutcome.ok) ∧
    (∀ (cfg : ScraperConfig) (env : FlowEnv), cfg.preSaleCode = "" →
      env.preSale = PreSaleCheck.present submitOk →
      (executeBookingFlow cfg env).1 = false) ∧
    (∀ (cfg : ScraperConfig) (numLoops i : Nat) (rest : List Bool), ¬ numLoops < i →
      scraperLoop cfg numLoops i (false :: rest) =
        (scraperLoop cfg numLoops i rest).map
          (fun tr => (i, false, PostStep.backoffReset 2 (resetBrowserStateURL cfg)) :: tr)) := by
  refine ⟨rfl, ?_, ?_, ?_⟩
  · intro h
    simp [handlePreSaleCode, h]
  · intro cfg env hcode hps
    simp [executeBookingFlow, hps, handlePreSaleCode, hcode]
  · intro cfg numLoops i rest h
    rw [scraperLoop, if_neg h]
    simp

/-- Witness for C5 at concrete inputs. -/
theorem c5_presale_missing_code_fails_iteration_witness :
    handlePreSaleCode (PreSaleCheck.present true) "x" = PreSaleOutcome.ok ∧
    (executeBookingFlow noCodeCfg presaleEnv).1 = false ∧
    scraperLoop noCodeCfg 2 2 [false, true] =
      (scraperLoop noCodeCfg 2 2 [true]).map
        (fun tr => (2, false, PostStep.backoffReset 2 (resetBrowserStateURL noCodeCfg)) :: tr) := by
  obtain ⟨h1, h2, h3, h4⟩ := c5_presale_missing_code_fails_iteration "x" true
  exact ⟨h2 (by decide), h3 noCodeCfg presaleEnv rfl rfl, h4 noCodeCfg 2 2 [true] (by omega)⟩

theorem processTicketLoop_spec :
    ∀ (attempts : List TicketAttemptEnv) (n : Nat),
      (processTicketLoop n attempts).1 = (attempts.take n).any ticketAttemptSuccess ∧
      (processTicketLoop n attempts).2 =
        ((attempts.take n).takeWhile (fun a => ! ticketAttemptSuccess a)).length := by
  intro attempts
  induction attempts with
  | nil => intro n; cases n <;> simp [processTicketLoop]
  | cons a rest ih =>
    intro n
    cases n with
    | zero => simp [processTicketLoop]
    | succ m =>
      rcases hc : a.captcha with _ | t
      · have hs : ticketAttemptSuccess a = false := by
          simp [ticketAttemptSuccess, hc]
        rw [processTicketLoop]
        simp [hc, hs, (ih m).1, (ih m).2]
      · rcases hsub : a.submit with _ | obs
        · have hs : ticketAttemptSuccess a = false := by
            simp [ticketAttemptSuccess, hc, hsub]
          rw [processTicketLoop]
          simp [hc, hsub, hs, (ih m).1, (ih m).2]
        · by_cases herr : obs.errorMessage = ""
          · by_cases hurl : obs.newURL = obs.currentURL
            · have hs : ticketAttemptSuccess a = false := by
                simp [ticketAttemptSuccess, hc, hsub, herr, hurl]
              rw [processTicketLoop]
              simp [hc, hsub, herr, hurl, hs, (ih m).1, (ih m).2]
            · have hs : ticketAttemptSuccess a = true := by
                simp [ticketAttemptSuccess, hc, hsub, herr, hurl]
              rw [processTicketLoop]
              simp [hc, hsub, herr, hurl, hs]
          · have hs : ticketAttemptSuccess a = false := by
              simp [ticketAttemptSuccess, hc, hsub, herr]
            rw [processTicketLoop]
            simp [hc, hsub, herr, hs, (ih m).1, (ih m).2]

/-- C6: a ticket-form submission attempt is classified successful exactly
when the page URL changed and the error scan found no non-empty text: an
identical pre/post URL is failure even with no error text, a captcha or
submission error is failure, non-empty error text is failure regardless of
the URLs; `processTicketPage` succeeds exactly when one of at most 8
attempts succeeds, and reloads the page once for every failed attempt it
examines. -/
theorem c6_submission_success_iff_url_change_and_no_error :
    (∀ t cur msg new : String,
      ticketAttemptSuccess ⟨some t, some ⟨cur, msg, new⟩⟩ = true ↔ (msg = "" ∧ new ≠ cur)) ∧
    (∀ t cur : String, ticketAttemptSuccess ⟨some t, some ⟨cur, "", cur⟩⟩ = false) ∧
    (∀ sub : Option TicketSubmitObs, ticketAttemptSuccess ⟨none, sub⟩ = false) ∧
    (∀ cap : Option String, ticketAttemptSuccess ⟨cap, none⟩ = false) ∧
    (∀ attempts, (processTicketPage attempts).1 = (attempts.take 8).any ticketAttemptSuccess) ∧
    (∀ attempts, (processTicketPage attempts).2 =
      ((attempts.take 8).takeWhile (fun a => ! ticketAttemptSuccess a)).length) := by
  refine ⟨?_, ?_, ?_, ?_, ?_, ?_⟩
  · intro t cur msg new
    simp [ticketAttemptSuccess]
  · intro t cur
    simp [ticketAttemptSuccess]
  · intro sub
    rfl
  · intro cap
    cases cap <;> rfl
  · intro attempts
    exact (processTicketLoop_spec attempts 8).1
  · intro attempts
    exact (processTicketLoop_spec attempts 8).2

theorem firstMatch_none_iff (f : String) :
    ∀ links : List String, firstMatch f links = none ↔ ∀ a ∈ links, jsIncludes a f = false := by
  intro links
  induction links with
  | nil => simp [firstMatch]
  | cons a rest ih =>
    rw [firstMatch]
    by_cases h : jsIncludes a f = true
    · simp [h]
    · have h0 : jsIncludes a f = false := by simpa using h
      simp [h0, Option.map_eq_none', ih]

theorem firstMatch_some_spec (f : String) :
    ∀ (links : List String) (i : Nat) (t : String),
      firstMatch f links = some (i, t) →
      links.get? i = some t ∧ jsIncludes t f = true ∧
      ∀ j, j < i → ∀ u, links.get? j = some u → jsIncludes u f = false := by
  intro links
  induction links with
  | nil =>
    intro i t h
    rw [firstMatch] at h
    cases h
  | cons a rest ih =>
    intro i t h
    rw [firstMatch] at h
    by_cases ha : jsIncludes a f = true
    · rw [if_pos ha] at h
      cases h
      exact ⟨rfl, ha, fun j hj u hu => absurd hj (by omega)⟩
    · have ha0 : jsIncludes a f = false := by simpa using ha
      rw [if_neg ha, Option.map_eq_some'] at h
      obtain ⟨⟨i0, t0⟩, hm, heq⟩ := h
      cases heq
      obtain ⟨h1, h2, h3⟩ := ih i0 t0 hm
      refine ⟨by simpa using h1, h2, ?_⟩
      intro j hj u hu
      cases j with
      | zero =>
        simp only [List.get?_cons_zero, Option.some.injEq] at hu
        exact hu ▸ ha0
      | succ j0 =>
        exact h3 j0 (by omega) u (by simpa using hu)

theorem firstFilterMatch_spec (links : List String) :
    ∀ (fs : List String) (i : Nat) (t : String),
      firstFilterMatch links fs = some (i, t) →
      ∃ k f, fs.get? k = some f ∧ firstMatch f links = some (i, t) ∧
        ∀ k', k' < k → ∀ g, fs.get? k' = some g → firstMatch g links = none := by
  intro fs
  induction fs with
  | nil =>
    intro i t h
    rw [firstFilterMatch] at h
    cases h
  | cons f fs ih =>
    intro i t h
    rw [firstFilterMatch] at h
    rcases hm : firstMatch f links with _ | p
    · simp only [hm] at h
      obtain ⟨k, g, h1, h2, h3⟩ := ih i t h
      refine ⟨k + 1, g, by simpa using h1, h2, ?_⟩
      intro k' hk' g' hg'
      cases k' with
      | zero =>
        simp only [List.get?_cons_zero, Option.some.injEq] at hg'
        exact hg' ▸ hm
      | succ k0 =>
        exact h3 k0 (by omega) g' (by simpa using hg')
    · simp only [hm] at h
      cases h
      exact ⟨0, f, rfl, hm, fun k' hk' g hg => absurd hk' (by omega)⟩

theorem seatScript_filtered (filter : String) (links : List String)
    (h1 : filter ≠ "") (h2 : goTrimSpace filter ≠ "")
    (hfs : splitFilters filter ≠ []) :
    seatScript filter links =
      match firstFilterMatch links (splitFilters filter) with
      | some (i, t) => (goTrimSpace t, some i)
      | none => ("no_matching_seat", none) := by
  unfold seatScript
  rw [if_neg (by simp [h1, h2])]
  rcases hsp : splitFilters filter with _ | ⟨f, fs⟩
  · exact absurd hsp hfs
  · cases fs with
    | nil =>
      simp only [List.length_cons, List.length_nil]
      rw [if_neg (by omega)]
      simp only [List.headD_cons, firstFilterMatch]
      rcases hm : firstMatch f links with _ | p <;> simp [hm]
    | cons f2 fs2 =>
      simp only [List.length_cons]
      rw [if_pos (by omega)]

/-- C7 counterexample: with no filter configured and no area links on the
page, no link is clicked, yet the handler does not fail the iteration:
the script returns the sentinel `"no_seats_available"`, which the Go code
never checks, so the flow proceeds treating it as the selected seat. -/
theorem c7_counterexample :
    seatScript "" [] = ("no_seats_available", none) ∧
    seatOutcome "" [] = SeatOutcome.selected "no_seats_available" none ∧
    seatOutcome "" [] ≠ SeatOutcome.failed :=
  ⟨by decide, by decide, by decide⟩

/-- C7 (amended): with a non-empty filter the script clicks the first area
link whose text contains the filter under case-sensitive substring
containment; with a comma-separated list the alternatives are tried
first-to-last and the first filter with any match wins; with no filter the
first available area is clicked; when a filter is set and nothing matches
the handler fails the iteration (not a crash) — but when no filter is set
and no areas exist, the unchecked sentinel `"no_seats_available"` flows on
as if it were a seat label. -/
theorem c7_seat_selection_semantics :
    (∀ (f : String) (links : List String) (i : Nat) (t : String),
      firstMatch f links = some (i, t) →
      links.get? i = some t ∧ jsIncludes t f = true ∧
      ∀ j, j < i → ∀ u, links.get? j = some u → jsIncludes u f = false) ∧
    (∀ (f : String) (links : List String),
      firstMatch f links = none ↔ ∀ a ∈ links, jsIncludes a f = false) ∧
    (∀ (links fs : List String) (i : Nat) (t : String),
      firstFilterMatch links fs = some (i, t) →
      ∃ k f, fs.get? k = some f ∧ firstMatch f links = some (i, t) ∧
        ∀ k', k' < k → ∀ g, fs.get? k' = some g → firstMatch g links = none) ∧
    (∀ (filter : String) (links : List String),
      filter ≠ "" → goTrimSpace filter ≠ "" → splitFilters filter ≠ [] →
      seatScript filter links =
        match firstFilterMatch links (splitFilters filter) with
        | some (i, t) => (goTrimSpace t, some i)
        | none => ("no_matching_seat", none)) ∧
    (∀ (filter : String) (a : String) (rest : List String),
      (filter = "" ∨ goTrimSpace filter = "") →
      seatScript filter (a :: rest) = (goTrimSpace a, some 0)) ∧
    (∀ (filter : String) (links : List String),
      seatScript filter links = ("no_matching_seat", none) →
      seatOutcome filter links = SeatOutcome.failed) ∧
    (∀ (cfg : ScraperConfig) (env : FlowEnv) (links : List String),
      env.seatLinks = some links → seatOutcome cfg.filter links = SeatOutcome.failed →
      (executeBookingFlow cfg env).1 = false) ∧
    (∀ filter : String, (filter = "" ∨ goTrimSpace filter = "") →
      seatOutcome filter [] = SeatOutcome.selected "no_seats_available" none) := by
  refine ⟨firstMatch_some_spec, firstMatch_none_iff, firstFilterMatch_spec,
    seatScript_filtered, ?_, ?_, ?_, ?_⟩
  · intro filter a rest hblank
    unfold seatScript
    rw [if_pos (by rcases hblank with h | h <;> simp [h])]
  · intro filter links h
    simp [seatOutcome, h]
  · intro cfg env links hl hso
    unfold executeBookingFlow
    rcases handlePreSaleCode env.preSale cfg.preSaleCode with _ | msg
    · rw [hl]
      simp only [hso]
    · rfl
  · intro filter hblank
    have h : seatScript filter [] = ("no_seats_available", none) := by
      unfold seatScript
      rw [if_pos (by rcases hblank with h | h <;> simp [h])]
    simp only [seatOutcome, h]
    decide

/-- Witness for C7 at the spec scenario: filter list `"Z9,A2"` over the
areas `["A1 VIP", "A2 Standard", "A3 VIP"]` selects `"A2 Standard"`. -/
theorem c7_seat_selection_semantics_witness :
    ["A1 VIP", "A2 Standard", "A3 VIP"].get? 1 = some "A2 Standard" ∧
    jsIncludes "A2 Standard" "A2" = true ∧
    (∀ j, j < 1 → ∀ u, ["A1 VIP", "A2 Standard", "A3 VIP"].get? j = some u →
      jsIncludes u "A2" = false) ∧
    seatScript "Z9,A2" ["A1 VIP", "A2 Standard", "A3 VIP"] =
      match firstFilterMatch ["A1 VIP", "A2 Standard", "A3 VIP"] (splitFilters "Z9,A2") with
      | some (i, t) => (goTrimSpace t, some i)
      | none => ("no_matching_seat", none) := by
  obtain ⟨h1, h2, h3, h4, h5, h6, h7, h8⟩ := c7_seat_selection_semantics
  obtain ⟨g1, g2, g3⟩ :=
    h1 "A2" ["A1 VIP", "A2 Standard", "A3 VIP"] 1 "A2 Standard" (by decide)
  exact ⟨g1, g2, g3,
    h4 "Z9,A2" ["A1 VIP", "A2 Standard", "A3 VIP"] (by decide) (by decide) (by decide)⟩

theorem bookingAttemptLoop_quantity (quantity : String) :
    ∀ (n : Nat) (atts : List AttemptEnv),
      ∀ e ∈ (bookingAttemptLoop quantity n atts).2, eventQuantityOk quantity e := by
  intro n atts
  induction atts generalizing n with
  | nil =>
    intro e he
    cases n <;> simp [bookingAttemptLoop] at he
  | cons a rest ih =>
    intro e he
    cases n with
    | zero => simp [bookingAttemptLoop] at he
    | succ m =>
      rw [bookingAttemptLoop] at he
      rcases hc : a.captcha with _ | text
      · simp only [hc] at he
        rcases List.mem_cons.mp he with rfl | hm
        · trivial
        · exact ih m e hm
      · simp only [hc] at he
        rcases hs : a.submit with _ | obs
        · simp only [hs] at he
          rcases List.mem_cons.mp he with rfl | hm
          · trivial
          · exact ih m e hm
        · simp only [hs] at he
          split at he
          · rcases List.mem_cons.mp he with rfl | hm
            · exact rfl
            · rcases List.mem_cons.mp hm with rfl | hm2
              · trivial
              · exact ih m e hm2
          · split at he
            · rcases List.mem_cons.mp he with rfl | hm
              · exact rfl
              · simp at hm
            · rcases List.mem_cons.mp he with rfl | hm
              · exact rfl
              · rcases List.mem_cons.mp hm with rfl | hm2
                · trivial
                · exact ih m e hm2

/-- C8: the ticket-form submission always carries the configured
per-order quantity — the same string on every attempt of every iteration,
never a shrunken final amount — and the plan for quantity 2 with max 5 in
loop mode is 3 iterations, each still requesting 2. -/
theorem c8_full_per_order_quantity_every_iteration :
    (∀ (cfg : ScraperConfig) (env : FlowEnv) (q t : String),
      FlowEvent.submitAttempted q t ∈ (executeBookingFlow cfg env).2 →
      q = cfg.perOrderTicket) ∧
    runScraperPlan scenarioCfg = some 3 := by
  constructor
  · intro cfg env q t h
    rcases hps : handlePreSaleCode env.preSale cfg.preSaleCode with _ | msg
    · rcases hl : env.seatLinks with _ | links
      · simp [executeBookingFlow, hps, hl] at h
      · rcases hso : seatOutcome cfg.filter links with _ | ⟨text, idx⟩
        · simp [executeBookingFlow, hps, hl, hso] at h
        · rcases idx with _ | i
          · simp only [executeBookingFlow, hps, hl, hso, List.nil_append] at h
            exact bookingAttemptLoop_quantity cfg.perOrderTicket 8 env.attempts
              (FlowEvent.submitAttempted q t) h
          · simp only [executeBookingFlow, hps, hl, hso, List.cons_append,
              List.nil_append, List.mem_cons] at h
            rcases h with h | h
            · cases h
            · exact bookingAttemptLoop_quantity cfg.perOrderTicket 8 env.attempts
                (FlowEvent.submitAttempted q t) h
    · simp [executeBookingFlow, hps] at h
  · decide

/-- Witness for C8: the successful submission in the concrete environment
carries quantity 2, the configured per-order amount. -/
theorem c8_full_per_order_quantity_witness :
    "2" = flowCfg.perOrderTicket ∧ runScraperPlan scenarioCfg = some 3 :=
  ⟨c8_full_per_order_quantity_every_iteration.1 flowCfg successEnv "2" "wxyz" (by decide),
   c8_full_per_order_quantity_every_iteration.2⟩

/-- C9 counterexample: `saveBooking` writes the receipts file directly —
its operation sequence contains a plain write of `data/bookings.json` and
no rename at all — so not every write of the persisted files goes through
the temporary-file-plus-rename protocol. -/
theorem c9_counterexample :
    FileOp.writeFile "data/bookings.json" ∈ saveBookingOps ∧
    saveBookingOps.all
      (fun op => match op with | FileOp.rename _ _ => false | _ => true) = true ∧
    FileOp.writeFile "data/bookings.json.tmp" ∉ saveBookingOps :=
  ⟨by decide, by decide, by decide⟩

/-- C9 (amended): `safeSaveBooking` serializes the whole collection to a
temporary file in the same directory and renames it over the target, all
under the single `fileMutex` writer lock, and a successful append leaves
every previously stored receipt unchanged with the new receipt at the end;
`saveBooking`, under the same lock, writes the target directly without a
temporary file. -/
theorem c9_safe_save_atomic_append (l : List Booking) (b : Booking) :
    safeSaveBookingOps.head? = some FileOp.lockAcquire ∧
    safeSaveBookingOps.getLast? = some FileOp.lockRelease ∧
    FileOp.writeFile "data/bookings.json.tmp" ∈ safeSaveBookingOps ∧
    FileOp.rename "data/bookings.json.tmp" "data/bookings.json" ∈ safeSaveBookingOps ∧
    FileOp.writeFile "data/bookings.json" ∉ safeSaveBookingOps ∧
    saveBookingOps.head? = some FileOp.lockAcquire ∧
    saveBookingOps.getLast? = some FileOp.lockRelease ∧
    FileOp.writeFile "data/bookings.json" ∈ saveBookingOps ∧
    safeSaveBookingResult (ReadResult.content (some l)) b = some (l ++ [b]) ∧
    (l ++ [b]).take l.length = l ∧
    (l ++ [b]).getLast? = some b := by
  refine ⟨by decide, by decide, by decide, by decide, by decide, by decide, by decide,
    by decide, rfl, ?_, ?_⟩
  · exact List.take_left l [b]
  · exact List.getLast?_concat l

/-- C10: when the receipts file holds bytes that do not parse as JSON,
both save functions log, reset the in-memory collection to empty, and
write only the newly appended booking — the caller sees no error, and
every previously stored receipt is discarded.  (Contrast: a read error
aborts the write.) -/
theorem c10_corrupted_receipts_silently_discarded (b : Booking) :
    saveBookingResult (ReadResult.content none) b = some [b] ∧
    safeSaveBookingResult (ReadResult.content none) b = some [b] ∧
    saveBookingResult ReadResult.readError b = none ∧
    safeSaveBookingResult ReadResult.readError b = none :=
  ⟨rfl, rfl, rfl, rfl⟩

end TixScraper
